import Mathlib

/-!
Verification model of the KnowlyA learning-material application
(`src/hooks/use-gpt-chat.ts`: the `useGPTChatMutation` hook and the `App`
route component that contains the material store, the upload handler and
the AI content-generation pipeline).

The TypeScript code is shallowly embedded: stateful React code becomes
explicit state passing, external effects (the chat-completion backend, the
file-upload service, text extraction) become function parameters, and the
browser's `JSON.parse` is modelled by an executable JSON parser below.
-/

/-- A JSON value, as produced by the browser's `JSON.parse`.
Number literals are kept as their source tokens, since no code path of the
repository computes with parsed numbers; object fields keep their textual
order, and duplicate keys are resolved last-wins at lookup time, as
`JSON.parse` does. -/
inductive Json where
  | null : Json
  | bool (b : Bool) : Json
  | num (tok : String) : Json
  | str (s : String) : Json
  | arr (elems : List Json) : Json
  | obj (fields : List (String × Json)) : Json
  deriving Repr

mutual

/-- Boolean equality on JSON values. -/
def Json.beq : Json → Json → Bool
  | .null, .null => true
  | .bool a, .bool b => a == b
  | .num a, .num b => a == b
  | .str a, .str b => a == b
  | .arr xs, .arr ys => Json.beqElems xs ys
  | .obj xs, .obj ys => Json.beqFields xs ys
  | _, _ => false

/-- Boolean equality on lists of JSON values. -/
def Json.beqElems : List Json → List Json → Bool
  | [], [] => true
  | x :: xs, y :: ys => Json.beq x y && Json.beqElems xs ys
  | _, _ => false

/-- Boolean equality on JSON object field lists. -/
def Json.beqFields : List (String × Json) → List (String × Json) → Bool
  | [], [] => true
  | (k, v) :: xs, (l, w) :: ys => k == l && Json.beq v w && Json.beqFields xs ys
  | _, _ => false

end

mutual

theorem Json.beq_iff : ∀ a b : Json, Json.beq a b = true ↔ a = b
  | .null, b => by cases b <;> simp [Json.beq]
  | .bool _, b => by cases b <;> simp [Json.beq]
  | .num _, b => by cases b <;> simp [Json.beq]
  | .str _, b => by cases b <;> simp [Json.beq]
  | .arr xs, .arr ys => by
    rw [show Json.beq (.arr xs) (.arr ys) = Json.beqElems xs ys from rfl,
      Json.beqElems_iff xs ys]
    simp
  | .arr _, .null | .arr _, .bool _ | .arr _, .num _ | .arr _, .str _
  | .arr _, .obj _ => by simp [Json.beq]
  | .obj xs, .obj ys => by
    rw [show Json.beq (.obj xs) (.obj ys) = Json.beqFields xs ys from rfl,
      Json.beqFields_iff xs ys]
    simp
  | .obj _, .null | .obj _, .bool _ | .obj _, .num _ | .obj _, .str _
  | .obj _, .arr _ => by simp [Json.beq]

theorem Json.beqElems_iff : ∀ xs ys : List Json, Json.beqElems xs ys = true ↔ xs = ys
  | [], [] => by simp [Json.beqElems]
  | [], _ :: _ => by simp [Json.beqElems]
  | _ :: _, [] => by simp [Json.beqElems]
  | x :: xs, y :: ys => by
    rw [show Json.beqElems (x :: xs) (y :: ys) = (Json.beq x y && Json.beqElems xs ys)
        from rfl,
      Bool.and_eq_true, Json.beq_iff x y, Json.beqElems_iff xs ys]
    simp

theorem Json.beqFields_iff :
    ∀ xs ys : List (String × Json), Json.beqFields xs ys = true ↔ xs = ys
  | [], [] => by simp [Json.beqFields]
  | [], _ :: _ => by simp [Json.beqFields]
  | _ :: _, [] => by simp [Json.beqFields]
  | (k, v) :: xs, (l, w) :: ys => by
    rw [show Json.beqFields ((k, v) :: xs) ((l, w) :: ys)
          = (k == l && Json.beq v w && Json.beqFields xs ys) from rfl,
      Bool.and_eq_true, Bool.and_eq_true, Json.beq_iff v w, Json.beqFields_iff xs ys]
    simp

end

instance : DecidableEq Json := fun a b => decidable_of_iff _ (Json.beq_iff a b)

/-- The opening-brace character, written via its code point. -/
def lbrace : Char := Char.ofNat 123

/-- The closing-brace character, written via its code point. -/
def rbrace : Char := Char.ofNat 125

/-- JSON whitespace accepted between tokens by `JSON.parse`. -/
def jsonWs (c : Char) : Bool :=
  c == ' ' || c == '\t' || c == '\n' || c == '\r'

/-- Drop leading JSON whitespace. -/
def skipWs : List Char → List Char
  | [] => []
  | c :: cs => if jsonWs c then skipWs cs else c :: cs

/-- Hexadecimal digit value, for `\uXXXX` escapes. -/
def hexVal (c : Char) : Option Nat :=
  if '0' ≤ c ∧ c ≤ '9' then some (c.toNat - '0'.toNat)
  else if 'a' ≤ c ∧ c ≤ 'f' then some (c.toNat - 'a'.toNat + 10)
  else if 'A' ≤ c ∧ c ≤ 'F' then some (c.toNat - 'A'.toNat + 10)
  else none

/-- Parse the body of a JSON string literal (after the opening quote),
returning the decoded string and the input after the closing quote. -/
def parseStringBody : List Char → List Char → Option (String × List Char)
  | acc, '"' :: cs => some (String.mk acc.reverse, cs)
  | acc, '\\' :: 'u' :: a :: b :: c :: d :: cs =>
    match hexVal a, hexVal b, hexVal c, hexVal d with
    | some x, some y, some z, some w =>
      parseStringBody (Char.ofNat (((x * 16 + y) * 16 + z) * 16 + w) :: acc) cs
    | _, _, _, _ => none
  | acc, '\\' :: e :: cs =>
    if e == '"' then parseStringBody ('"' :: acc) cs
    else if e == '\\' then parseStringBody ('\\' :: acc) cs
    else if e == '/' then parseStringBody ('/' :: acc) cs
    else if e == 'b' then parseStringBody (Char.ofNat 8 :: acc) cs
    else if e == 'f' then parseStringBody (Char.ofNat 12 :: acc) cs
    else if e == 'n' then parseStringBody ('\n' :: acc) cs
    else if e == 'r' then parseStringBody ('\r' :: acc) cs
    else if e == 't' then parseStringBody ('\t' :: acc) cs
    else none
  | _, [] => none
  | acc, c :: cs =>
    if c.toNat < 32 then none else parseStringBody (c :: acc) cs

/-- Split a leading run of decimal digits from the input. -/
def takeDigits : List Char → List Char × List Char
  | [] => ([], [])
  | c :: cs =>
    if c.isDigit then
      let (ds, rest) := takeDigits cs
      (c :: ds, rest)
    else ([], c :: cs)

/-- Parse a JSON number token (sign, integer part, optional fraction and
exponent), returning the token text and the remaining input. -/
def parseNumToken (cs : List Char) : Option (String × List Char) :=
  let (sign, cs1) :=
    match cs with
    | '-' :: rest => (['-'], rest)
    | _ => (([] : List Char), cs)
  let (intDigits, cs2) := takeDigits cs1
  match intDigits with
  | [] => none
  | d :: ds =>
    if d == '0' ∧ ds ≠ [] then none
    else
      let (frac, cs3) :=
        match cs2 with
        | '.' :: rest =>
          let (fds, r) := takeDigits rest
          if fds = [] then (none, cs2) else (some ('.' :: fds), r)
        | _ => (none, cs2)
      match frac, cs2 with
      | none, '.' :: _ => none
      | _, _ =>
        let (expo, cs4) :=
          match cs3 with
          | e :: rest =>
            if e == 'e' || e == 'E' then
              let (esign, rest2) :=
                match rest with
                | '+' :: r => (['+'], r)
                | '-' :: r => (['-'], r)
                | _ => (([] : List Char), rest)
              let (eds, r) := takeDigits rest2
              if eds = [] then (none, cs3) else (some (e :: (esign ++ eds)), r)
            else (none, cs3)
          | [] => (none, cs3)
        match expo, cs3 with
        | none, e :: _ =>
          if e == 'e' || e == 'E' then none
          else some (String.mk (sign ++ intDigits ++ (frac.getD []) ), cs3)
        | _, _ =>
          some (String.mk (sign ++ intDigits ++ (frac.getD []) ++ (expo.getD [])), cs4)

mutual

/-- Parse one JSON value; `fuel` bounds the nesting/recursion depth. -/
def parseValue : Nat → List Char → Option (Json × List Char)
  | 0, _ => none
  | fuel + 1, cs =>
    match skipWs cs with
    | [] => none
    | 'n' :: 'u' :: 'l' :: 'l' :: rest => some (Json.null, rest)
    | 't' :: 'r' :: 'u' :: 'e' :: rest => some (Json.bool true, rest)
    | 'f' :: 'a' :: 'l' :: 's' :: 'e' :: rest => some (Json.bool false, rest)
    | '"' :: rest =>
      match parseStringBody [] rest with
      | some (s, rest2) => some (Json.str s, rest2)
      | none => none
    | c :: rest =>
      if c = lbrace then parseObjectBody fuel rest
      else if c = '[' then parseArrayBody fuel rest
      else
        match parseNumToken (c :: rest) with
        | some (tok, rest2) => some (Json.num tok, rest2)
        | none => none

/-- Parse an object body after the opening brace. -/
def parseObjectBody : Nat → List Char → Option (Json × List Char)
  | 0, _ => none
  | fuel + 1, cs =>
    match skipWs cs with
    | c :: rest =>
      if c = rbrace then some (Json.obj [], rest)
      else parseMembers fuel (c :: rest) []
    | [] => none

/-- Parse the members of an object (`"key": value` pairs separated by
commas), accumulating parsed fields in `acc`. -/
def parseMembers : Nat → List Char → List (String × Json) → Option (Json × List Char)
  | 0, _, _ => none
  | fuel + 1, cs, acc =>
    match skipWs cs with
    | '"' :: rest =>
      match parseStringBody [] rest with
      | some (key, rest2) =>
        match skipWs rest2 with
        | ':' :: rest3 =>
          match parseValue fuel rest3 with
          | some (v, rest4) =>
            match skipWs rest4 with
            | ',' :: rest5 => parseMembers fuel rest5 (acc ++ [(key, v)])
            | c :: rest5 =>
              if c = rbrace then some (Json.obj (acc ++ [(key, v)]), rest5)
              else none
            | [] => none
          | none => none
        | _ => none
      | none => none
    | _ => none

/-- Parse an array body after the opening bracket. -/
def parseArrayBody : Nat → List Char → Option (Json × List Char)
  | 0, _ => none
  | fuel + 1, cs =>
    match skipWs cs with
    | ']' :: rest => some (Json.arr [], rest)
    | _ => parseElems fuel cs []

/-- Parse the elements of an array, accumulating them in `acc`. -/
def parseElems : Nat → List Char → List Json → Option (Json × List Char)
  | 0, _, _ => none
  | fuel + 1, cs, acc =>
    match parseValue fuel cs with
    | some (v, rest) =>
      match skipWs rest with
      | ',' :: rest2 => parseElems fuel rest2 (acc ++ [v])
      | ']' :: rest2 => some (Json.arr (acc ++ [v]), rest2)
      | _ => none
    | none => none

end

/-- Model of the browser's `JSON.parse`: `none` means the call throws a
`SyntaxError`, `some v` is the parsed value. -/
def jsparse (s : String) : Option Json :=
  match parseValue (3 * s.length + 3) s.data with
  | some (v, rest) => if skipWs rest = [] then some v else none
  | none => none

example : jsparse "\x7b\x7d" = some (Json.obj []) := rfl
example : jsparse "not json" = none := rfl
example : jsparse "null" = some Json.null := rfl
example : jsparse " \x7b\"lessons\": [1, true]\x7d " =
    some (Json.obj [("lessons", Json.arr [Json.num "1", Json.bool true])]) := rfl
example : jsparse "\x7b\"a\": -0.5e3\x7d" =
    some (Json.obj [("a", Json.num "-0.5e3")]) := rfl
example : jsparse "\"a\\nb\"" = some (Json.str "a\nb") := rfl
example : jsparse "[1," = none := rfl
example : jsparse "01" = none := rfl

/-- JavaScript property read `v[key]` on a `JSON.parse` result.
`none` models a thrown `TypeError` (property access on `null`);
`some none` models the access evaluating to `undefined`;
`some (some w)` is a present field.  `JSON.parse` resolves duplicate
object keys last-wins, hence the reversed lookup. -/
def jsProp (v : Json) (key : String) : Option (Option Json) :=
  match v with
  | .null => none
  | .obj fields => some ((fields.reverse.find? (fun p => p.1 == key)).map (·.2))
  | _ => some none

/-- JavaScript truthiness of a `JSON.parse` result (`undefined` is handled
separately by the callers).  A number is falsy exactly when its mantissa
has no nonzero digit. -/
def jsTruthy : Json → Bool
  | .null => false
  | .bool b => b
  | .num tok =>
    !((tok.data.takeWhile (fun c => c != 'e' && c != 'E')).all
      (fun c => !(c.isDigit && c != '0')))
  | .str s => s != ""
  | .arr _ => true
  | .obj _ => true

/-- JavaScript `x[key] || []` applied to a `JSON.parse` result: the field
when present and truthy, otherwise `[]`; `none` when the access throws. -/
def jsFieldOrEmpty (v : Json) (key : String) : Option Json :=
  match jsProp v key with
  | none => none
  | some none => some (Json.arr [])
  | some (some w) => some (if jsTruthy w then w else Json.arr [])

/-- The fallback micro-lesson list built when the lessons response cannot
be used: one lesson titled `Overview` wrapping the raw completion text
(`use-gpt-chat.ts` lines 627-632). -/
def fallbackLessons (raw : String) : Json :=
  Json.arr [Json.obj [("title", Json.str "Overview"), ("content", Json.str raw)]]

/-- Lines 623-632 of `use-gpt-chat.ts`: parse the lessons completion.
`JSON.parse` throwing, or the subsequent property access throwing (a
`null` parse result), lands in the `catch` and yields the fallback list;
otherwise the value is `lessonsData.lessons || []`. -/
def extractLessons (raw : String) : Json :=
  match jsparse raw with
  | none => fallbackLessons raw
  | some v =>
    match jsFieldOrEmpty v "lessons" with
    | none => fallbackLessons raw
    | some w => w

/-- Lines 634-639 of `use-gpt-chat.ts` (and identically lines 919-925 in
`generateNewQuestions`): parse the quiz completion; every failure path
(`JSON.parse` throw or property access throw) yields the empty list,
otherwise `quizData.questions || []`. -/
def extractQuestions (raw : String) : Json :=
  match jsparse raw with
  | none => Json.arr []
  | some v =>
    match jsFieldOrEmpty v "questions" with
    | none => Json.arr []
    | some w => w

/-- Lines 641-646 of `use-gpt-chat.ts`: parse the flashcards completion;
failure yields the empty list, otherwise `flashcardsData.flashcards || []`. -/
def extractFlashcards (raw : String) : Json :=
  match jsparse raw with
  | none => Json.arr []
  | some v =>
    match jsFieldOrEmpty v "flashcards" with
    | none => Json.arr []
    | some w => w

example : extractLessons "nonsense" = fallbackLessons "nonsense" := by decide
example : extractLessons "null" = fallbackLessons "null" := by decide
example : extractLessons "\x7b\x7d" = Json.arr [] := by decide
example : extractQuestions "\x7b\x7d" = Json.arr [] := by decide
example :
    extractLessons "\x7b\"lessons\": [\x7b\"title\": \"t\", \"content\": \"c\"\x7d]\x7d"
      = Json.arr [Json.obj [("title", Json.str "t"), ("content", Json.str "c")]] := by
  decide

/-! ## Data model (`use-gpt-chat.ts` lines 239-298) -/

/-- The caller-supplied lesson-length setting. -/
inductive LessonLength where
  | short
  | normal
  | long
  deriving Repr, DecidableEq

/-- A JavaScript `Date`, identified by its epoch-milliseconds value. -/
structure Date where
  ms : Int
  deriving Repr, DecidableEq

/-- One saved quiz attempt (`QuizResult`, lines 267-272). -/
structure QuizResult where
  timestamp : Date
  totalQuestions : Nat
  correctAnswers : Nat
  percentage : Rat
  deriving Repr, DecidableEq

/-- `LearningContent` (lines 259-265).  The three structured slices hold
the raw values produced by the JSON parsing blocks: the TypeScript
interfaces declare `MicroLesson[]`, `QuizQuestion[]` and `Flashcard[]`,
but no runtime validation ever narrows the parsed value. -/
structure LearningContent where
  microLessons : Json
  quizQuestions : Json
  summary : String
  flashcards : Json
  detectedLanguage : String
  deriving Repr, DecidableEq

/-- `processingStatus` of an `UploadedMaterial` (line 285). -/
inductive ProcessingStatus where
  | pending
  | processing
  | completed
  | error
  deriving Repr, DecidableEq

/-- `UploadedMaterial` (lines 274-288). -/
structure Material where
  id : String
  fileName : String
  fileType : String
  fileUrl : String
  uploadedAt : Date
  extractedText : String
  detectedLanguage : Option String
  suggestedTitle : Option String
  thematicCategory : Option String
  content : Option LearningContent
  processingStatus : ProcessingStatus
  error : Option String
  quizResults : Option (List QuizResult)
  deriving Repr, DecidableEq

/-- `FREE_DAILY_LIMIT` (line 298). -/
def FREE_DAILY_LIMIT : Nat := 3

/-! ## Store operations

Every mutation of the materials collection in the component is a
`setMaterials` call mapping over the previous list and rebuilding the one
record whose `id` matches. -/

/-- The common shape of the store mutations: rebuild the record whose `id`
matches, leave every other record untouched. -/
def updateById (ms : List Material) (mid : String) (f : Material → Material) :
    List Material :=
  ms.map fun m => if m.id == mid then f m else m

/-- The initial material entry created by `handleFileUpload`
(lines 694-702). -/
def createMaterial (mid fileName fileType : String) (now : Date) : Material :=
  { id := mid
    fileName := fileName
    fileType := fileType
    fileUrl := ""
    uploadedAt := now
    extractedText := ""
    detectedLanguage := none
    suggestedTitle := none
    thematicCategory := none
    content := none
    processingStatus := .pending
    error := none
    quizResults := none }

/-- Lines 716-722: attach the upload URL and move to `processing`. -/
def markUploading (ms : List Material) (mid url : String) : List Material :=
  updateById ms mid fun m => { m with fileUrl := url, processingStatus := .processing }

/-- Lines 744-748: attach the extracted text. -/
def attachExtractedText (ms : List Material) (mid text : String) : List Material :=
  updateById ms mid fun m => { m with extractedText := text }

/-- Lines 758-767: store detected language, suggested title and category. -/
def attachMetadata (ms : List Material) (mid lang title cat : String) : List Material :=
  updateById ms mid fun m =>
    { m with detectedLanguage := some lang, suggestedTitle := some title,
             thematicCategory := some cat }

/-- Lines 770-776: attach the generated content and move to `completed`. -/
def attachContent (ms : List Material) (mid : String) (c : LearningContent) :
    List Material :=
  updateById ms mid fun m => { m with content := some c, processingStatus := .completed }

/-- Lines 783-793 (the `catch` of `handleFileUpload`): record the error
message and move to `error`. -/
def recordFailure (ms : List Material) (mid msg : String) : List Material :=
  updateById ms mid fun m => { m with processingStatus := .error, error := some msg }

/-- Lines 798-803: delete a material. -/
def deleteMaterial (ms : List Material) (mid : String) : List Material :=
  ms.filter fun m => !(m.id == mid)

/-- Lines 806-815: rename a material. -/
def renameMaterial (ms : List Material) (mid newName : String) : List Material :=
  updateById ms mid fun m => { m with fileName := newName }

/-- Lines 871-877 of `saveQuizResult`: append an attempt to the
material's history (`[...(m.quizResults || []), newResult]`). -/
def appendQuizResult (ms : List Material) (mid : String) (r : QuizResult) :
    List Material :=
  updateById ms mid fun m => { m with quizResults := some ((m.quizResults.getD []) ++ [r]) }

/-- Lines 928-940 of `generateNewQuestions`: replace the quiz slice of the
selected material's content in place, provided the record has content
(`m.id === selectedMaterial.id && m.content`). -/
def replaceQuizQuestions (ms : List Material) (mid : String) (qs : Json) :
    List Material :=
  ms.map fun m =>
    if m.id == mid && m.content.isSome then
      { m with content := m.content.map fun c => { c with quizQuestions := qs } }
    else m

/-! ## Persistence (`use-gpt-chat.ts` lines 332-347 and 382-387)

`localStorage` under the `learning-materials` key is modelled by the
structural image of `JSON.stringify` on the materials list: strings,
numbers and nested records survive unchanged, while each `Date` serializes
to its encoded form and loses its `Date` type until re-hydration. -/

/-- A `QuizResult` as it sits in `localStorage`: the `timestamp` has lost
its `Date` type. -/
structure SerQuizResult where
  timestamp : Int
  totalQuestions : Nat
  correctAnswers : Nat
  percentage : Rat
  deriving Repr, DecidableEq

/-- A material as it sits in `localStorage`: `uploadedAt` and the attempt
timestamps have lost their `Date` type. -/
structure SerMaterial where
  id : String
  fileName : String
  fileType : String
  fileUrl : String
  uploadedAt : Int
  extractedText : String
  detectedLanguage : Option String
  suggestedTitle : Option String
  thematicCategory : Option String
  content : Option LearningContent
  processingStatus : ProcessingStatus
  error : Option String
  quizResults : Option (List SerQuizResult)
  deriving Repr, DecidableEq

/-- `JSON.stringify` on one quiz attempt. -/
def serializeQuizResult (r : QuizResult) : SerQuizResult :=
  ⟨r.timestamp.ms, r.totalQuestions, r.correctAnswers, r.percentage⟩

/-- Re-hydrate one attempt (`timestamp: new Date(r.timestamp)`, line 341). -/
def rehydrateQuizResult (r : SerQuizResult) : QuizResult :=
  ⟨Date.mk r.timestamp, r.totalQuestions, r.correctAnswers, r.percentage⟩

/-- `JSON.stringify` on one material. -/
def serializeMaterial (m : Material) : SerMaterial :=
  { id := m.id
    fileName := m.fileName
    fileType := m.fileType
    fileUrl := m.fileUrl
    uploadedAt := m.uploadedAt.ms
    extractedText := m.extractedText
    detectedLanguage := m.detectedLanguage
    suggestedTitle := m.suggestedTitle
    thematicCategory := m.thematicCategory
    content := m.content
    processingStatus := m.processingStatus
    error := m.error
    quizResults := m.quizResults.map (List.map serializeQuizResult) }

/-- Lines 336-343: re-hydrate one stored material, rebuilding
`uploadedAt` and each attempt timestamp as `Date` values. -/
def rehydrateMaterial (s : SerMaterial) : Material :=
  { id := s.id
    fileName := s.fileName
    fileType := s.fileType
    fileUrl := s.fileUrl
    uploadedAt := Date.mk s.uploadedAt
    extractedText := s.extractedText
    detectedLanguage := s.detectedLanguage
    suggestedTitle := s.suggestedTitle
    thematicCategory := s.thematicCategory
    content := s.content
    processingStatus := s.processingStatus
    error := s.error
    quizResults := s.quizResults.map (List.map rehydrateQuizResult) }

/-- Lines 383-387, the persistence effect that runs after every change to
`materials`: the collection is written only when it is non-empty,
otherwise the previously stored value is left in place. -/
def persistEffect (ms : List Material) (stored : Option (List SerMaterial)) :
    Option (List SerMaterial) :=
  if ms.length > 0 then some (ms.map serializeMaterial) else stored

/-- Lines 332-347, the load at process start: re-hydrate the stored list,
or start empty when nothing is stored. -/
def loadMaterials (stored : Option (List SerMaterial)) : List Material :=
  match stored with
  | none => []
  | some l => l.map rehydrateMaterial

theorem rehydrateQuizResult_serialize (r : QuizResult) :
    rehydrateQuizResult (serializeQuizResult r) = r := rfl

theorem rehydrateMaterial_serialize (m : Material) :
    rehydrateMaterial (serializeMaterial m) = m := by
  cases m with
  | mk id fileName fileType fileUrl uploadedAt extractedText detectedLanguage
      suggestedTitle thematicCategory content processingStatus err quizResults =>
    simp [rehydrateMaterial, serializeMaterial, Option.map_map, Function.comp_def,
      rehydrateQuizResult_serialize]

/-! ## Sorting view (`getSortedMaterials`, lines 828-847)

The code copies the list (`[...materials]`) and sorts the copy with
`Array.prototype.sort`, which is a stable sort; `localeCompare` on the
default locale is modelled by the lexicographic order on strings.  The
stable sort itself is modelled by `List.insertionSort`. -/

/-- `a.thematicCategory || "Other"` (lines 834-835): an absent or empty
category falls back to `Other`. -/
def categoryOrOther (m : Material) : String :=
  match m.thematicCategory with
  | some c => if c = "" then "Other" else c
  | none => "Other"

/-- The `theme` comparator (lines 833-840): ascending by category,
ties broken by upload time descending. -/
def themeLE (a b : Material) : Prop :=
  categoryOrOther a < categoryOrOther b ∨
    (categoryOrOther a = categoryOrOther b ∧ b.uploadedAt.ms ≤ a.uploadedAt.ms)

/-- The `name` comparator (line 842): ascending by file name. -/
def nameLE (a b : Material) : Prop :=
  a.fileName ≤ b.fileName

/-- The `date` comparator (line 845): upload time descending. -/
def dateLE (a b : Material) : Prop :=
  b.uploadedAt.ms ≤ a.uploadedAt.ms

instance : DecidableRel themeLE := fun _ _ =>
  inferInstanceAs (Decidable (_ ∨ _))

instance : DecidableRel nameLE := fun _ _ =>
  inferInstanceAs (Decidable (_ ≤ _))

instance : DecidableRel dateLE := fun _ _ =>
  inferInstanceAs (Decidable (_ ≤ _))

instance : IsTotal Material themeLE where
  total a b := by
    rcases lt_trichotomy (categoryOrOther a) (categoryOrOther b) with h | h | h
    · exact Or.inl (Or.inl h)
    · rcases le_total b.uploadedAt.ms a.uploadedAt.ms with h2 | h2
      · exact Or.inl (Or.inr ⟨h, h2⟩)
      · exact Or.inr (Or.inr ⟨h.symm, h2⟩)
    · exact Or.inr (Or.inl h)

instance : IsTrans Material themeLE where
  trans a b c hab hbc := by
    rcases hab with h1 | ⟨h1, t1⟩
    · rcases hbc with h2 | ⟨h2, _⟩
      · exact Or.inl (h1.trans h2)
      · exact Or.inl (h2 ▸ h1)
    · rcases hbc with h2 | ⟨h2, t2⟩
      · exact Or.inl (h1 ▸ h2)
      · exact Or.inr ⟨h1.trans h2, t2.trans t1⟩

instance : IsTotal Material nameLE where
  total a b := le_total a.fileName b.fileName

instance : IsTrans Material nameLE where
  trans _ _ _ hab hbc := le_trans hab hbc

instance : IsTotal Material dateLE where
  total a b := le_total b.uploadedAt.ms a.uploadedAt.ms

instance : IsTrans Material dateLE where
  trans _ _ _ hab hbc := le_trans hbc hab

/-- The sort keys offered by the UI (line 308). -/
inductive SortKey where
  | date
  | theme
  | name
  deriving Repr, DecidableEq

/-- `getSortedMaterials` (lines 828-847): a sorted copy of the list. -/
def getSortedMaterials (sortBy : SortKey) (ms : List Material) : List Material :=
  match sortBy with
  | .theme => ms.insertionSort themeLE
  | .name => ms.insertionSort nameLE
  | .date => ms.insertionSort dateLE

/-! ## The generation pipeline (`use-gpt-chat.ts` lines 486-655)

Each stage is one `chatMutation.mutateAsync` call.  The backend is
modelled by an oracle mapping the request messages to the completion
text; `text.slice(0, n)` becomes `String.take`, `trim` becomes
`String.trim`.  The run is recorded as a list of observable events:
progress updates, the upload-counter increment, the file upload and the
chat calls, each chat call tagged with its stage. -/

/-- A chat role (`ChatMessage`, lines 8-11 of the hook). -/
inductive Role where
  | system
  | user
  | assistant
  deriving Repr, DecidableEq

/-- One chat message. -/
structure ChatMessage where
  role : Role
  content : String
  deriving Repr, DecidableEq

/-- The chat-completion backend: request messages to completion text. -/
def Oracle : Type := List ChatMessage → String

/-- The pipeline stages, one per call site. -/
inductive Stage where
  | detectLang
  | suggestTitle
  | categorize
  | lessons
  | quiz
  | summary
  | flashcards
  deriving Repr, DecidableEq

/-- An observable effect of the upload handler and the pipeline. -/
inductive Event where
  | progress (value : Nat)
  | incCount
  | upload (fileName : String)
  | alert (msg : String)
  | chat (stage : Stage) (messages : List ChatMessage)
  deriving Repr, DecidableEq

/-- The chat calls of an event list, in order, by stage tag. -/
def chatStages (evs : List Event) : List Stage :=
  evs.filterMap fun e =>
    match e with
    | .chat s _ => some s
    | _ => none

/-- The successive progress values of an event list, in order. -/
def progressValues (evs : List Event) : List Nat :=
  evs.filterMap fun e =>
    match e with
    | .progress v => some v
    | _ => none

/-- The language-detection request (lines 486-498). -/
def detectMsgs (text : String) : List ChatMessage :=
  [⟨.system, "You are a language detection expert. Detect the language of the provided text and return ONLY the language name in English (e.g., \x27English\x27, \x27German\x27, \x27Spanish\x27, \x27French\x27, etc.). Return just the language name, nothing else."⟩,
   ⟨.user, "Detect the language of this text:\n\n" ++ text.take 1000⟩]

/-- `detectLanguage` (lines 486-500): the completion text, trimmed. -/
def detectLanguage (o : Oracle) (text : String) : String :=
  (o (detectMsgs text)).trim

/-- The title-suggestion request (lines 503-515). -/
def titleMsgs (text lang : String) : List ChatMessage :=
  [⟨.system, "You are a content analyst. Analyze the provided text and generate a short, descriptive title (3-8 words) that captures the main topic or subject. Respond ONLY with the title in " ++ lang ++ ", nothing else."⟩,
   ⟨.user, "Generate a title for this content:\n\n" ++ text.take 2000⟩]

/-- `generateSuggestedTitle` (lines 503-517). -/
def generateSuggestedTitle (o : Oracle) (text lang : String) : String :=
  (o (titleMsgs text lang)).trim

/-- The categorization request (lines 520-532). -/
def categorizeMsgs (text lang : String) : List ChatMessage :=
  [⟨.system, "You are a content categorization expert. Analyze the provided text and assign it to ONE thematic category. Choose from: Science, Technology, History, Literature, Mathematics, Business, Arts, Health, Language, Social Studies, Philosophy, Engineering, or Other. Respond ONLY with the category name in " ++ lang ++ ", nothing else."⟩,
   ⟨.user, "Categorize this content:\n\n" ++ text.take 2000⟩]

/-- `categorizeContent` (lines 520-534). -/
def categorizeContent (o : Oracle) (text lang : String) : String :=
  (o (categorizeMsgs text lang)).trim

/-- One entry of the `lessonConfig` table (lines 546-550). -/
structure LessonConfig where
  count : String
  detail : String
  deriving Repr, DecidableEq

/-- The `lessonConfig` table (lines 546-550). -/
def lessonConfig : LessonLength → LessonConfig
  | .short => ⟨"2-3", "brief and concise, focusing only on key points"⟩
  | .normal => ⟨"4-5", "moderate detail with clear explanations"⟩
  | .long => ⟨"6-8", "comprehensive and detailed with examples and in-depth explanations"⟩

/-- The micro-lessons request (lines 555-566). -/
def lessonsMsgs (config : LessonConfig) (lang text : String) : List ChatMessage :=
  [⟨.system, "You are an educational content creator. Create " ++ config.count ++ " " ++ config.detail ++ " micro-lessons from the provided text. You MUST respond in " ++ lang ++ ". Return ONLY valid JSON in this exact format: \x7b\"lessons\": [\x7b\"title\": \"...\", \"content\": \"...\"\x7d]\x7d"⟩,
   ⟨.user, "Create micro-lessons from this text:\n\n" ++ text.take 4000⟩]

/-- The quiz request (lines 571-582). -/
def quizMsgs (lang text : String) : List ChatMessage :=
  [⟨.system, "You are a quiz creator. Create 5-7 detailed multiple-choice questions with 4 options each. Include an explanation for each correct answer. You MUST respond in " ++ lang ++ ". Return ONLY valid JSON in this exact format: \x7b\"questions\": [\x7b\"question\": \"...\", \"options\": [\"A\", \"B\", \"C\", \"D\"], \"correctAnswer\": 0, \"explanation\": \"...\"\x7d]\x7d"⟩,
   ⟨.user, "Create quiz questions from this text:\n\n" ++ text.take 4000⟩]

/-- The summary request (lines 587-598). -/
def summaryMsgs (lang text : String) : List ChatMessage :=
  [⟨.system, "You are a summarization expert. Create a concise 2-3 paragraph summary. You MUST respond in " ++ lang ++ "."⟩,
   ⟨.user, "Summarize this text:\n\n" ++ text.take 4000⟩]

/-- The flashcards request (lines 603-614). -/
def flashcardsMsgs (lang text : String) : List ChatMessage :=
  [⟨.system, "You are a flashcard creator. Create 10-12 detailed flashcards with a question/term on the front and a comprehensive answer/definition on the back. You MUST respond in " ++ lang ++ ". Return ONLY valid JSON in this exact format: \x7b\"flashcards\": [\x7b\"front\": \"...\", \"back\": \"...\"\x7d]\x7d"⟩,
   ⟨.user, "Create flashcards from this text:\n\n" ++ text.take 4000⟩]

/-- `generateLearningContent` (lines 537-655): detect the language, then
issue the lessons, quiz, summary and flashcard calls in order, parsing
the three structured responses; returns the content and the emitted
events (progress checkpoints 10, 25, 40, 60, 80, 100 interleaved with
the five chat calls). -/
def generateLearningContent (o : Oracle) (extractedText : String)
    (len : LessonLength) : LearningContent × List Event :=
  let detectedLanguage := detectLanguage o extractedText
  let config := lessonConfig len
  let lessonsReq := lessonsMsgs config detectedLanguage extractedText
  let quizReq := quizMsgs detectedLanguage extractedText
  let summaryReq := summaryMsgs detectedLanguage extractedText
  let flashcardsReq := flashcardsMsgs detectedLanguage extractedText
  ({ microLessons := extractLessons (o lessonsReq)
     quizQuestions := extractQuestions (o quizReq)
     summary := o summaryReq
     flashcards := extractFlashcards (o flashcardsReq)
     detectedLanguage := detectedLanguage },
   [.progress 10, .chat .detectLang (detectMsgs extractedText),
    .progress 25, .chat .lessons lessonsReq,
    .progress 40, .chat .quiz quizReq,
    .progress 60, .chat .summary summaryReq,
    .progress 80, .chat .flashcards flashcardsReq,
    .progress 100])

/-! ## The upload handler (`handleFileUpload`, lines 658-795) -/

/-- The app state touched by the upload handler. -/
structure AppState where
  materials : List Material
  todayUploadCount : Nat
  userIsPremium : Bool
  subIsPremium : Bool
  showSubscriptionDialog : Bool
  deriving Repr, DecidableEq

/-- `canUpload` (lines 395-400). -/
def canUpload (st : AppState) : Bool :=
  if st.userIsPremium || st.subIsPremium then true
  else decide (st.todayUploadCount < FREE_DAILY_LIMIT)

/-- Character-list prefix test (used by the string helpers below, which
model the JavaScript string methods with executable list recursion). -/
def listStartsWith : List Char → List Char → Bool
  | _, [] => true
  | [], _ :: _ => false
  | a :: as, b :: bs => a == b && listStartsWith as bs

/-- Character-list substring test. -/
def listContainsSub : List Char → List Char → Bool
  | [], sub => sub.isEmpty
  | a :: as, sub => listStartsWith (a :: as) sub || listContainsSub as sub

/-- ASCII lower-casing of one character, modelling `toLowerCase` on the
ASCII file names and MIME types the format gate inspects. -/
def charToLower (c : Char) : Char :=
  if 'A' ≤ c ∧ c ≤ 'Z' then Char.ofNat (c.toNat + 32) else c

/-- `String.prototype.toLowerCase`. -/
def strToLower (s : String) : String :=
  String.mk (s.data.map charToLower)

/-- `String.prototype.startsWith`. -/
def strStartsWith (s p : String) : Bool :=
  listStartsWith s.data p.data

/-- `String.prototype.endsWith`. -/
def strEndsWith (s p : String) : Bool :=
  listStartsWith s.data.reverse p.data.reverse

/-- `String.prototype.includes`. -/
def strContains (s sub : String) : Bool :=
  listContainsSub s.data sub.data

/-- `String.prototype.split` on the dot separator (line 691). -/
def splitOnDot : List Char → List (List Char)
  | [] => [[]]
  | c :: rest =>
    match splitOnDot rest with
    | [] => [[]]
    | g :: gs => if c == '.' then [] :: g :: gs else (c :: g) :: gs

/-- The file-format gate (lines 674-682). -/
def isValidFormat (name mime : String) : Bool :=
  let fileName := strToLower name
  let fileType := strToLower mime
  fileType == "application/pdf" ||
  strContains fileType "presentation" ||
  strEndsWith fileName ".ppt" ||
  strEndsWith fileName ".pptx" ||
  strStartsWith fileType "text/" ||
  strEndsWith fileName ".txt"

/-- `file.type || file.name.split(".").pop() || "unknown"` (line 691). -/
def actualFileType (name mime : String) : String :=
  if mime != "" then mime
  else
    match (splitOnDot name.data).getLast? with
    | some seg => if seg ≠ [] then String.mk seg else "unknown"
    | none => "unknown"

example : isValidFormat "Notes.TXT" "" = true := by decide
example : isValidFormat "slides.key" "application/zip" = false := by decide
example : isValidFormat "deck" "application/vnd.ms-powerpoint.presentation" = true := by
  decide
example : actualFileType "a.b.pdf" "" = "pdf" := by decide
example : actualFileType "x.pdf" "application/pdf" = "application/pdf" := by decide
example : actualFileType "noext" "" = "noext" := by decide
example : actualFileType "dot." "" = "unknown" := by decide

/-- Where the `try` block of `handleFileUpload` throws, when it does: the
file upload, the text extraction, or one of the seven awaited chat calls. -/
inductive FailurePoint where
  | atUpload
  | atExtract
  | atDetect
  | atLessons
  | atQuiz
  | atSummary
  | atFlashcards
  | atTitle
  | atCategorize
  deriving Repr, DecidableEq

/-- The outcome of one `handleFileUpload` run: the final state, the
emitted events, and every successive value the materials store took
(one entry per `setMaterials` call). -/
structure UploadResult where
  state : AppState
  events : List Event
  storeTrace : List (List Material)
  deriving Repr, DecidableEq

/-- The upload-limit gate of `handleFileUpload` (line 667):
`!effectiveIsPremium && !canUpload()` with
`effectiveIsPremium = currentUser?.isPremium || false`. -/
def uploadBlocked (st : AppState) : Bool :=
  !st.userIsPremium && !canUpload st

/-- The part of `handleFileUpload` past both gates (lines 690-794): create
the material, increment the counter, then run the `try` block up to
`failAt` (`none` meaning it completes); the `catch` records the failure
message on the material.  `url` is the upload result, `text` the
extraction result. -/
def runUploadPipeline (o : Oracle) (st : AppState) (fileName fileMime : String)
    (now : Date) (mid : String) (len : LessonLength) (url text errMsg : String)
    (failAt : Option FailurePoint) : UploadResult :=
  let m0 := createMaterial mid fileName (actualFileType fileName fileMime) now
  let ms1 := st.materials ++ [m0]
  let count1 := st.todayUploadCount + 1
  let pre : List Event := [.progress 0, .incCount, .upload fileName]
  match failAt with
  | some .atUpload =>
    let msE := recordFailure ms1 mid errMsg
    { state := { st with materials := msE, todayUploadCount := count1 }
      events := pre
      storeTrace := [ms1, msE] }
  | some .atExtract =>
    let ms2 := markUploading ms1 mid url
    let msE := recordFailure ms2 mid errMsg
    { state := { st with materials := msE, todayUploadCount := count1 }
      events := pre ++ [.progress 10]
      storeTrace := [ms1, ms2, msE] }
  | some fp =>
    let ms2 := markUploading ms1 mid url
    let ms3 := attachExtractedText ms2 mid text
    let glc := generateLearningContent o text len
    let msE := recordFailure ms3 mid errMsg
    let tailEvents : List Event :=
      match fp with
      | .atDetect => glc.2.take 2
      | .atLessons => glc.2.take 4
      | .atQuiz => glc.2.take 6
      | .atSummary => glc.2.take 8
      | .atFlashcards => glc.2.take 10
      | .atTitle => glc.2 ++ [.chat .suggestTitle (titleMsgs text glc.1.detectedLanguage)]
      | _ => glc.2 ++ [.chat .suggestTitle (titleMsgs text glc.1.detectedLanguage),
                       .chat .categorize (categorizeMsgs text glc.1.detectedLanguage)]
    { state := { st with materials := msE, todayUploadCount := count1 }
      events := pre ++ [.progress 10, .progress 20] ++ tailEvents
      storeTrace := [ms1, ms2, ms3, msE] }
  | none =>
    let ms2 := markUploading ms1 mid url
    let ms3 := attachExtractedText ms2 mid text
    let glc := generateLearningContent o text len
    let content := glc.1
    let suggestedTitle := generateSuggestedTitle o text content.detectedLanguage
    let thematicCategory := categorizeContent o text content.detectedLanguage
    let ms4 := attachMetadata ms3 mid content.detectedLanguage suggestedTitle thematicCategory
    let ms5 := attachContent ms4 mid content
    { state := { st with materials := ms5, todayUploadCount := count1 }
      events := pre ++ [.progress 10, .progress 20] ++ glc.2 ++
        [.chat .suggestTitle (titleMsgs text content.detectedLanguage),
         .chat .categorize (categorizeMsgs text content.detectedLanguage)]
      storeTrace := [ms1, ms2, ms3, ms4, ms5] }

/-- `handleFileUpload` (lines 658-795): the limit gate, then the format
gate, then the pipeline; each gate returns before any side effect. -/
def handleFileUpload (o : Oracle) (st : AppState) (fileName fileMime : String)
    (now : Date) (mid : String) (len : LessonLength) (url text errMsg : String)
    (failAt : Option FailurePoint) : UploadResult :=
  if uploadBlocked st then
    { state := { st with showSubscriptionDialog := true }, events := [], storeTrace := [] }
  else if !isValidFormat fileName fileMime then
    { state := st
      events := [.alert "Nur PDF, PPT und Text-Dateien sind erlaubt."]
      storeTrace := [] }
  else
    runUploadPipeline o st fileName fileMime now mid len url text errMsg failAt

theorem handleFileUpload_blocked (o : Oracle) (st : AppState)
    (fileName fileMime : String) (now : Date) (mid : String) (len : LessonLength)
    (url text errMsg : String) (failAt : Option FailurePoint)
    (h : uploadBlocked st = true) :
    handleFileUpload o st fileName fileMime now mid len url text errMsg failAt
      = { state := { st with showSubscriptionDialog := true }, events := [],
          storeTrace := [] } := by
  simp [handleFileUpload, h]

theorem handleFileUpload_run (o : Oracle) (st : AppState)
    (fileName fileMime : String) (now : Date) (mid : String) (len : LessonLength)
    (url text errMsg : String) (failAt : Option FailurePoint)
    (h1 : uploadBlocked st = false) (h2 : isValidFormat fileName fileMime = true) :
    handleFileUpload o st fileName fileMime now mid len url text errMsg failAt
      = runUploadPipeline o st fileName fileMime now mid len url text errMsg failAt := by
  simp [handleFileUpload, h1, h2]

/-! ## Quiz regeneration (`generateNewQuestions`, lines 900-961) -/

/-- The regeneration request (lines 906-917), the quiz stage re-run with
the prompt variant asking for new, different questions. -/
def newQuestionsMsgs (lang text : String) : List ChatMessage :=
  [⟨.system, "You are a quiz creator. Create 5-7 NEW and DIFFERENT detailed multiple-choice questions with 4 options each. Make sure these questions are different from any previous questions. Include an explanation for each correct answer. You MUST respond in " ++ lang ++ ". Return ONLY valid JSON in this exact format: \x7b\"questions\": [\x7b\"question\": \"...\", \"options\": [\"A\", \"B\", \"C\", \"D\"], \"correctAnswer\": 0, \"explanation\": \"...\"\x7d]\x7d"⟩,
   ⟨.user, "Create NEW quiz questions from this text:\n\n" ++ text.take 4000⟩]

/-- JavaScript `newQuestions.length > 0` on the parsed value: arrays and
strings have a `length`; on every other value the access yields
`undefined` and the comparison is false. -/
def jsLenPositive : Json → Bool
  | .arr xs => !xs.isEmpty
  | .str s => s != ""
  | _ => false

/-- The outcome of one `generateNewQuestions` run. -/
structure RegenResult where
  materials : List Material
  events : List Event
  deriving Repr, DecidableEq

/-- `generateNewQuestions` (lines 900-961): guarded on the selected
material having extracted text and a detected language; one quiz-stage
chat call; the parsed questions replace the quiz slice only when
non-empty; a thrown call is caught and changes nothing (`callFails`). -/
def generateNewQuestions (o : Oracle) (ms : List Material) (sel : Material)
    (callFails : Bool) : RegenResult :=
  match sel.detectedLanguage with
  | none => ⟨ms, []⟩
  | some lang =>
    if sel.extractedText == "" || lang == "" then ⟨ms, []⟩
    else
      let req := newQuestionsMsgs lang sel.extractedText
      if callFails then ⟨ms, [.chat .quiz req]⟩
      else
        let newQuestions := extractQuestions (o req)
        if jsLenPositive newQuestions then
          ⟨replaceQuizQuestions ms sel.id newQuestions, [.chat .quiz req]⟩
        else ⟨ms, [.chat .quiz req]⟩

/-! ## The material lifecycle invariant (claim C1) -/

/-- The data-model invariant: `content` is present exactly in status
`completed`, `error` exactly in status `error`. -/
def materialInv (m : Material) : Prop :=
  (m.content.isSome = true ↔ m.processingStatus = .completed) ∧
  (m.error.isSome = true ↔ m.processingStatus = .error)

instance (m : Material) : Decidable (materialInv m) := by
  unfold materialInv; infer_instance

/-- The invariant over the whole store. -/
def storeInv (ms : List Material) : Prop := ∀ m ∈ ms, materialInv m

instance (ms : List Material) : Decidable (storeInv ms) := by
  unfold storeInv; infer_instance

theorem updateById_append (ms : List Material) (m0 : Material) (mid : String)
    (f : Material → Material) (hfresh : ∀ m ∈ ms, m.id ≠ mid) (h0 : m0.id = mid) :
    updateById (ms ++ [m0]) mid f = ms ++ [f m0] := by
  unfold updateById
  rw [List.map_append]
  congr 1
  · have h1 : List.map (fun m => if m.id == mid then f m else m) ms
        = List.map id ms :=
      List.map_congr_left (fun m hm => by simp [hfresh m hm])
    rw [h1, List.map_id]
  · simp [h0]

theorem storeInv_append_singleton {ms : List Material} {m : Material}
    (h : storeInv ms) (hm : materialInv m) : storeInv (ms ++ [m]) := by
  intro x hx
  rcases List.mem_append.1 hx with hx | hx
  · exact h x hx
  · rcases List.mem_singleton.1 hx with rfl
    exact hm

theorem storeInv_replaceQuizQuestions (ms : List Material) (mid : String) (qs : Json)
    (h : storeInv ms) : storeInv (replaceQuizQuestions ms mid qs) := by
  intro m hm
  unfold replaceQuizQuestions at hm
  rw [List.mem_map] at hm
  obtain ⟨m', hm', rfl⟩ := hm
  have h' : (m'.content.isSome = true ↔ m'.processingStatus = .completed) ∧
      (m'.error.isSome = true ↔ m'.processingStatus = .error) := h m' hm'
  by_cases hc : (m'.id == mid && m'.content.isSome) = true
  · rcases Option.isSome_iff_exists.1 (Bool.and_elim_right hc) with ⟨c, hcc⟩
    have hst : m'.processingStatus = .completed := h'.1.mp (by simp [hcc])
    rw [if_pos hc]
    unfold materialInv
    exact ⟨by simp [hcc, hst], by simpa using h'.2⟩
  · rw [if_neg hc]
    exact h m' hm'

/-- C1: after every lifecycle operation — creation, upload, extracted-text
attachment, metadata attachment, content attachment, error recording at
any failure point, and quiz-question regeneration — every store value
satisfies the invariant: `content` present iff status `completed`, `error`
present iff status `error`.  `hfresh` states that the generated material
id is not already in the store. -/
theorem C1_material_invariant (o o2 : Oracle) (st : AppState)
    (fileName fileMime : String) (now : Date) (mid : String) (len : LessonLength)
    (url text errMsg : String) (failAt : Option FailurePoint)
    (sel : Material) (callFails : Bool)
    (hfresh : ∀ m ∈ st.materials, m.id ≠ mid)
    (hinv : storeInv st.materials) :
    (∀ s ∈ (handleFileUpload o st fileName fileMime now mid len url text errMsg
        failAt).storeTrace, storeInv s) ∧
    storeInv (generateNewQuestions o2 st.materials sel callFails).materials := by
  constructor
  · by_cases hb : uploadBlocked st = true
    · rw [handleFileUpload_blocked o st fileName fileMime now mid len url text errMsg
        failAt hb]
      intro s hs
      simp at hs
    · have hb' : uploadBlocked st = false := by simpa using hb
      by_cases hf : isValidFormat fileName fileMime = true
      · rw [handleFileUpload_run o st fileName fileMime now mid len url text errMsg
          failAt hb' hf]
        have e1 : markUploading (st.materials ++
              [createMaterial mid fileName (actualFileType fileName fileMime) now])
              mid url
            = st.materials ++
              [{ createMaterial mid fileName (actualFileType fileName fileMime) now with
                  fileUrl := url, processingStatus := .processing }] := by
          rw [markUploading, updateById_append _ _ _ _ hfresh rfl]
        have e2 : attachExtractedText (st.materials ++
              [{ createMaterial mid fileName (actualFileType fileName fileMime) now with
                  fileUrl := url, processingStatus := .processing }]) mid text
            = st.materials ++
              [{ createMaterial mid fileName (actualFileType fileName fileMime) now with
                  fileUrl := url, processingStatus := .processing,
                  extractedText := text }] := by
          rw [attachExtractedText, updateById_append _ _ _ _ hfresh rfl]
        have e3 : attachMetadata (st.materials ++
              [{ createMaterial mid fileName (actualFileType fileName fileMime) now with
                  fileUrl := url, processingStatus := .processing,
                  extractedText := text }]) mid
              (generateLearningContent o text len).1.detectedLanguage
              (generateSuggestedTitle o text
                (generateLearningContent o text len).1.detectedLanguage)
              (categorizeContent o text
                (generateLearningContent o text len).1.detectedLanguage)
            = st.materials ++
              [{ createMaterial mid fileName (actualFileType fileName fileMime) now with
                  fileUrl := url, processingStatus := .processing,
                  extractedText := text,
                  detectedLanguage :=
                    some (generateLearningContent o text len).1.detectedLanguage,
                  suggestedTitle := some (generateSuggestedTitle o text
                    (generateLearningContent o text len).1.detectedLanguage),
                  thematicCategory := some (categorizeContent o text
                    (generateLearningContent o text len).1.detectedLanguage) }] := by
          rw [attachMetadata, updateById_append _ _ _ _ hfresh rfl]
        have e4 : attachContent (st.materials ++
              [{ createMaterial mid fileName (actualFileType fileName fileMime) now with
                  fileUrl := url, processingStatus := .processing,
                  extractedText := text,
                  detectedLanguage :=
                    some (generateLearningContent o text len).1.detectedLanguage,
                  suggestedTitle := some (generateSuggestedTitle o text
                    (generateLearningContent o text len).1.detectedLanguage),
                  thematicCategory := some (categorizeContent o text
                    (generateLearningContent o text len).1.detectedLanguage) }]) mid
              (generateLearningContent o text len).1
            = st.materials ++
              [{ createMaterial mid fileName (actualFileType fileName fileMime) now with
                  fileUrl := url, processingStatus := .completed,
                  extractedText := text,
                  detectedLanguage :=
                    some (generateLearningContent o text len).1.detectedLanguage,
                  suggestedTitle := some (generateSuggestedTitle o text
                    (generateLearningContent o text len).1.detectedLanguage),
                  thematicCategory := some (categorizeContent o text
                    (generateLearningContent o text len).1.detectedLanguage),
                  content := some (generateLearningContent o text len).1 }] := by
          rw [attachContent, updateById_append _ _ _ _ hfresh rfl]
        have eE1 : recordFailure (st.materials ++
              [createMaterial mid fileName (actualFileType fileName fileMime) now])
              mid errMsg
            = st.materials ++
              [{ createMaterial mid fileName (actualFileType fileName fileMime) now with
                  processingStatus := .error, error := some errMsg }] := by
          rw [recordFailure, updateById_append _ _ _ _ hfresh rfl]
        have eE2 : recordFailure (st.materials ++
              [{ createMaterial mid fileName (actualFileType fileName fileMime) now with
                  fileUrl := url, processingStatus := .processing }]) mid errMsg
            = st.materials ++
              [{ createMaterial mid fileName (actualFileType fileName fileMime) now with
                  fileUrl := url, processingStatus := .error, error := some errMsg }] := by
          rw [recordFailure, updateById_append _ _ _ _ hfresh rfl]
        have eE3 : recordFailure (st.materials ++
              [{ createMaterial mid fileName (actualFileType fileName fileMime) now with
                  fileUrl := url, processingStatus := .processing,
                  extractedText := text }]) mid errMsg
            = st.materials ++
              [{ createMaterial mid fileName (actualFileType fileName fileMime) now with
                  fileUrl := url, processingStatus := .error,
                  extractedText := text, error := some errMsg }] := by
          rw [recordFailure, updateById_append _ _ _ _ hfresh rfl]
        rcases failAt with _ | fp
        · intro s hs
          simp only [runUploadPipeline] at hs
          rw [e1, e2, e3, e4] at hs
          simp only [List.mem_cons, List.not_mem_nil, or_false] at hs
          rcases hs with rfl | rfl | rfl | rfl | rfl <;>
            exact storeInv_append_singleton hinv
              (by simp [materialInv, createMaterial])
        · cases fp
          · intro s hs
            simp only [runUploadPipeline] at hs
            rw [eE1] at hs
            simp only [List.mem_cons, List.not_mem_nil, or_false] at hs
            rcases hs with rfl | rfl <;>
              exact storeInv_append_singleton hinv
                (by simp [materialInv, createMaterial])
          · intro s hs
            simp only [runUploadPipeline] at hs
            rw [e1, eE2] at hs
            simp only [List.mem_cons, List.not_mem_nil, or_false] at hs
            rcases hs with rfl | rfl | rfl <;>
              exact storeInv_append_singleton hinv
                (by simp [materialInv, createMaterial])
          all_goals
            intro s hs
            simp only [runUploadPipeline] at hs
            rw [e1, e2, eE3] at hs
            simp only [List.mem_cons, List.not_mem_nil, or_false] at hs
            rcases hs with rfl | rfl | rfl | rfl <;>
              exact storeInv_append_singleton hinv
                (by simp [materialInv, createMaterial])
      · have hf' : isValidFormat fileName fileMime = false := by simpa using hf
        intro s hs
        simp [handleFileUpload, hb', hf'] at hs
  · unfold generateNewQuestions
    rcases hsel : sel.detectedLanguage with _ | lang
    · exact hinv
    · dsimp only
      split
      · exact hinv
      · split
        · exact hinv
        · split
          · exact storeInv_replaceQuizQuestions _ _ _ hinv
          · exact hinv

/-- Witness for C1 at a concrete input: an empty store, a fresh id, a
successful run and a regeneration on an unrelated selected material. -/
theorem C1_material_invariant_witness :
    (∀ m ∈ ([] : List Material), m.id ≠ "m-1") ∧ storeInv [] ∧
    ((∀ s ∈ (handleFileUpload (fun _ => "English")
        ⟨[], 0, false, false, false⟩ "notes.txt" "text/plain" ⟨1700000000000⟩
        "m-1" .normal "https://files/notes.txt" "hello world" "" none).storeTrace,
      storeInv s) ∧
     storeInv (generateNewQuestions (fun _ => "\x7b\x7d") []
        (createMaterial "m-2" "a.txt" "text/plain" ⟨0⟩) false).materials) :=
  ⟨by decide, by decide,
   C1_material_invariant (fun _ => "English") (fun _ => "\x7b\x7d")
     ⟨[], 0, false, false, false⟩ "notes.txt" "text/plain" ⟨1700000000000⟩
     "m-1" .normal "https://files/notes.txt" "hello world" "" none
     (createMaterial "m-2" "a.txt" "text/plain" ⟨0⟩) false
     (by decide) (by decide)⟩

/-- C2: counterexample.  The completion text consisting of an empty JSON
object is valid JSON missing the expected `lessons` field — a parse
failure in the claim's sense — yet lesson extraction returns the empty
list (`lessonsData.lessons || []` with the `catch` never firing), not the
claimed single-element wrap of the raw text. -/
theorem C2_counterexample :
    jsparse "\x7b\x7d" = some (Json.obj []) ∧
    extractLessons "\x7b\x7d" = Json.arr [] ∧
    extractLessons "\x7b\x7d" ≠ fallbackLessons "\x7b\x7d" := by
  refine ⟨rfl, rfl, ?_⟩
  decide

/-- C2, amended: when `JSON.parse` itself throws (invalid JSON), lesson
extraction returns the single-element wrap of the raw text and quiz and
flashcard extraction return the empty list; when the text is valid JSON
on which the expected field access yields `undefined`, all three
extractions return the empty list; when the text parses to JSON `null`
(so the field access throws), the `catch` fires and the fallbacks apply
as in the invalid-JSON case.  All extraction paths are total — none
raises. -/
theorem C2_parse_fallbacks :
    (∀ raw, jsparse raw = none →
      extractLessons raw = fallbackLessons raw ∧
      extractQuestions raw = Json.arr [] ∧
      extractFlashcards raw = Json.arr []) ∧
    (∀ raw, jsparse raw = some Json.null →
      extractLessons raw = fallbackLessons raw ∧
      extractQuestions raw = Json.arr [] ∧
      extractFlashcards raw = Json.arr []) ∧
    (∀ raw v, jsparse raw = some v →
      (jsProp v "lessons" = some none → extractLessons raw = Json.arr []) ∧
      (jsProp v "questions" = some none → extractQuestions raw = Json.arr []) ∧
      (jsProp v "flashcards" = some none → extractFlashcards raw = Json.arr [])) := by
  refine ⟨fun raw h => ?_, fun raw h => ?_, fun raw v hv => ?_⟩
  · simp [extractLessons, extractQuestions, extractFlashcards, h]
  · simp [extractLessons, extractQuestions, extractFlashcards, h, jsFieldOrEmpty, jsProp]
  · exact ⟨fun hf => by simp [extractLessons, hv, jsFieldOrEmpty, hf],
      fun hf => by simp [extractQuestions, hv, jsFieldOrEmpty, hf],
      fun hf => by simp [extractFlashcards, hv, jsFieldOrEmpty, hf]⟩

/-- Witness for C2's amended statement at concrete completion texts:
an invalid-JSON text, the text `null`, and a valid object without the
expected fields. -/
theorem C2_parse_fallbacks_witness :
    (jsparse "not json at all" = none ∧
      extractLessons "not json at all" = fallbackLessons "not json at all") ∧
    (jsparse "null" = some Json.null ∧ extractQuestions "null" = Json.arr []) ∧
    (jsparse "\x7b\"a\": 1\x7d" = some (Json.obj [("a", Json.num "1")]) ∧
      extractLessons "\x7b\"a\": 1\x7d" = Json.arr []) :=
  ⟨⟨rfl, (C2_parse_fallbacks.1 "not json at all" rfl).1⟩,
   ⟨rfl, (C2_parse_fallbacks.2.1 "null" rfl).2.1⟩,
   ⟨rfl, (C2_parse_fallbacks.2.2 "\x7b\"a\": 1\x7d"
      (Json.obj [("a", Json.num "1")]) rfl).1 rfl⟩⟩

/-- C3: counterexample.  On a concrete processed upload the chat calls are
not issued in the claimed order detect → title → categorize → lessons →
quiz → summary → flashcards: `handleFileUpload` runs
`generateLearningContent` first and only then the title and category
calls. -/
theorem C3_counterexample :
    chatStages (handleFileUpload (fun _ => "English") ⟨[], 0, false, false, false⟩
        "notes.txt" "text/plain" ⟨0⟩ "m-1" .normal "u" "hello" "" none).events
      ≠ [Stage.detectLang, Stage.suggestTitle, Stage.categorize, Stage.lessons,
         Stage.quiz, Stage.summary, Stage.flashcards] := by
  decide

/-- C3, amended: for every processed upload the chat calls are issued in
the order detect language → lessons → quiz → summary → flashcards →
suggest title → categorize. -/
theorem C3_stage_order (o : Oracle) (st : AppState) (fileName fileMime : String)
    (now : Date) (mid : String) (len : LessonLength) (url text errMsg : String)
    (h1 : uploadBlocked st = false) (h2 : isValidFormat fileName fileMime = true) :
    chatStages (handleFileUpload o st fileName fileMime now mid len url text errMsg
        none).events
      = [Stage.detectLang, Stage.lessons, Stage.quiz, Stage.summary,
         Stage.flashcards, Stage.suggestTitle, Stage.categorize] := by
  rw [handleFileUpload_run o st fileName fileMime now mid len url text errMsg none h1 h2]
  simp [runUploadPipeline, generateLearningContent, chatStages]

/-- Witness for C3's amended order at a concrete successful run. -/
theorem C3_stage_order_witness :
    uploadBlocked ⟨[], 0, false, false, false⟩ = false ∧
    isValidFormat "a.txt" "text/plain" = true ∧
    chatStages (handleFileUpload (fun _ => "x") ⟨[], 0, false, false, false⟩ "a.txt"
        "text/plain" ⟨0⟩ "m" .short "u" "t" "" none).events
      = [Stage.detectLang, Stage.lessons, Stage.quiz, Stage.summary,
         Stage.flashcards, Stage.suggestTitle, Stage.categorize] :=
  ⟨by decide, by decide,
   C3_stage_order (fun _ => "x") ⟨[], 0, false, false, false⟩ "a.txt" "text/plain"
     ⟨0⟩ "m" .short "u" "t" "" (by decide) (by decide)⟩

/-- C4: counterexample.  On a concrete run the successive progress values
are 0, 10, 20, 10, 25, 40, 60, 80, 100: the value drops from 20 to 10
when `generateLearningContent` starts, so the sequence is not
monotonically increasing. -/
theorem C4_counterexample :
    progressValues (handleFileUpload (fun _ => "English") ⟨[], 0, false, false, false⟩
        "notes.txt" "text/plain" ⟨0⟩ "m-1" .normal "u" "hello" "" none).events
      = [0, 10, 20, 10, 25, 40, 60, 80, 100] ∧
    ¬ List.Chain' (· ≤ ·)
      (progressValues (handleFileUpload (fun _ => "English")
        ⟨[], 0, false, false, false⟩
        "notes.txt" "text/plain" ⟨0⟩ "m-1" .normal "u" "hello" "" none).events) := by
  have e : progressValues (handleFileUpload (fun _ => "English")
      ⟨[], 0, false, false, false⟩
      "notes.txt" "text/plain" ⟨0⟩ "m-1" .normal "u" "hello" "" none).events
      = [0, 10, 20, 10, 25, 40, 60, 80, 100] := by decide
  refine ⟨e, ?_⟩
  rw [e]
  intro h
  simp [List.chain'_cons] at h

/-- C4, amended: during a successful document run the progress indicator
takes exactly the values 0, 10, 20, 10, 25, 40, 60, 80, 100 in order —
all within 0–100, non-decreasing except for the single drop from 20 to 10
at the start of `generateLearningContent`. -/
theorem C4_progress_trace (o : Oracle) (st : AppState) (fileName fileMime : String)
    (now : Date) (mid : String) (len : LessonLength) (url text errMsg : String)
    (h1 : uploadBlocked st = false) (h2 : isValidFormat fileName fileMime = true) :
    progressValues (handleFileUpload o st fileName fileMime now mid len url text errMsg
        none).events = [0, 10, 20, 10, 25, 40, 60, 80, 100] ∧
    ∀ v ∈ progressValues (handleFileUpload o st fileName fileMime now mid len url text
        errMsg none).events, v ≤ 100 := by
  have e : progressValues (handleFileUpload o st fileName fileMime now mid len url text
      errMsg none).events = [0, 10, 20, 10, 25, 40, 60, 80, 100] := by
    rw [handleFileUpload_run o st fileName fileMime now mid len url text errMsg none
      h1 h2]
    simp [runUploadPipeline, generateLearningContent, progressValues]
  refine ⟨e, ?_⟩
  rw [e]
  decide

/-- Witness for C4's amended progress trace at a concrete run. -/
theorem C4_progress_trace_witness :
    uploadBlocked ⟨[], 0, false, false, false⟩ = false ∧
    isValidFormat "a.txt" "text/plain" = true ∧
    progressValues (handleFileUpload (fun _ => "x") ⟨[], 0, false, false, false⟩
        "a.txt" "text/plain" ⟨0⟩ "m" .long "u" "t" "" none).events
      = [0, 10, 20, 10, 25, 40, 60, 80, 100] :=
  ⟨by decide, by decide,
   (C4_progress_trace (fun _ => "x") ⟨[], 0, false, false, false⟩ "a.txt" "text/plain"
     ⟨0⟩ "m" .long "u" "t" "" (by decide) (by decide)).1⟩

/-- A sample stored material used by the concrete persistence checks. -/
def sampleMaterial : Material :=
  { id := "mat-7"
    fileName := "phys.pdf"
    fileType := "application/pdf"
    fileUrl := "https://files/phys.pdf"
    uploadedAt := ⟨1700000000000⟩
    extractedText := "kinematics"
    detectedLanguage := some "English"
    suggestedTitle := some "Kinematics Basics"
    thematicCategory := some "Science"
    content := some
      { microLessons := Json.arr [Json.obj [("title", Json.str "t"),
          ("content", Json.str "c")]]
        quizQuestions := Json.arr []
        summary := "a summary"
        flashcards := Json.arr []
        detectedLanguage := "English" }
    processingStatus := .completed
    error := none
    quizResults := some [⟨⟨1700000100000⟩, 5, 4, 80⟩] }

/-- C5: counterexample.  Deleting the last material empties the
collection, but the persistence effect is guarded by
`materials.length > 0`, so the change is not written: the stored value
still holds the deleted material and the reload resurrects it instead of
yielding the (empty) collection. -/
theorem C5_counterexample :
    deleteMaterial [sampleMaterial] "mat-7" = [] ∧
    persistEffect (deleteMaterial [sampleMaterial] "mat-7")
        (persistEffect [sampleMaterial] none)
      ≠ some ((deleteMaterial [sampleMaterial] "mat-7").map serializeMaterial) ∧
    loadMaterials (persistEffect (deleteMaterial [sampleMaterial] "mat-7")
        (persistEffect [sampleMaterial] none)) = [sampleMaterial] := by
  refine ⟨by decide, by decide, by decide⟩

/-- C5, amended: after every change that leaves the collection non-empty
the full collection is written to storage and reloading it re-hydrates
every date field back to a `Date` value, recovering the collection
exactly; a change that empties the collection is not persisted — the
previously stored value is left in place. -/
theorem C5_persistence (ms : List Material) (stored : Option (List SerMaterial))
    (h : ms ≠ []) :
    persistEffect ms stored = some (ms.map serializeMaterial) ∧
    loadMaterials (persistEffect ms stored) = ms ∧
    ∀ stored2 : Option (List SerMaterial), persistEffect [] stored2 = stored2 := by
  have hp : persistEffect ms stored = some (ms.map serializeMaterial) := by
    unfold persistEffect
    rw [if_pos]
    exact List.length_pos.mpr h
  refine ⟨hp, ?_, fun stored2 => by simp [persistEffect]⟩
  rw [hp]
  simp [loadMaterials, List.map_map, Function.comp_def, rehydrateMaterial_serialize]

/-- Witness for C5's amended persistence round trip at a concrete store. -/
theorem C5_persistence_witness :
    ([sampleMaterial] ≠ ([] : List Material)) ∧
    persistEffect [sampleMaterial] none = some [serializeMaterial sampleMaterial] ∧
    loadMaterials (persistEffect [sampleMaterial] none) = [sampleMaterial] :=
  ⟨by decide, (C5_persistence [sampleMaterial] none (by decide)).1,
   (C5_persistence [sampleMaterial] none (by decide)).2.1⟩

/-- Material equality up to the quiz slice: every material field agrees,
and the content — present on both sides or absent on both sides — agrees
on `microLessons`, `summary`, `flashcards` and `detectedLanguage`. -/
def sameExceptQuiz (m m2 : Material) : Prop :=
  m2.id = m.id ∧ m2.fileName = m.fileName ∧ m2.fileType = m.fileType ∧
  m2.fileUrl = m.fileUrl ∧ m2.uploadedAt = m.uploadedAt ∧
  m2.extractedText = m.extractedText ∧ m2.detectedLanguage = m.detectedLanguage ∧
  m2.suggestedTitle = m.suggestedTitle ∧ m2.thematicCategory = m.thematicCategory ∧
  m2.processingStatus = m.processingStatus ∧ m2.error = m.error ∧
  m2.quizResults = m.quizResults ∧
  match m.content, m2.content with
  | none, none => True
  | some c, some c2 =>
      c2.microLessons = c.microLessons ∧ c2.summary = c.summary ∧
      c2.flashcards = c.flashcards ∧ c2.detectedLanguage = c.detectedLanguage
  | _, _ => False

theorem sameExceptQuiz_refl (m : Material) : sameExceptQuiz m m := by
  unfold sameExceptQuiz
  rcases m.content with _ | c <;> simp

/-- C6: regenerating quiz questions touches, at most, the
`quizQuestions` slice of the selected material's content: every other
field and content slice of the selected material keeps its value, and
every other material is returned unchanged, whatever the backend answers
and whether or not the call fails. -/
theorem C6_regeneration_frame (o : Oracle) (ms : List Material) (sel : Material)
    (callFails : Bool) :
    List.Forall₂ (fun m m2 => if m.id = sel.id then sameExceptQuiz m m2 else m2 = m)
      ms (generateNewQuestions o ms sel callFails).materials := by
  have hsame : List.Forall₂
      (fun m m2 => if m.id = sel.id then sameExceptQuiz m m2 else m2 = m) ms ms :=
    List.forall₂_same.2 fun m _ => by
      by_cases h : m.id = sel.id
      · rw [if_pos h]; exact sameExceptQuiz_refl m
      · rw [if_neg h]
  unfold generateNewQuestions
  rcases sel.detectedLanguage with _ | lang
  · exact hsame
  · dsimp only
    split
    · exact hsame
    · split
      · exact hsame
      · split
        · rw [replaceQuizQuestions]
          rw [List.forall₂_map_right_iff]
          refine List.forall₂_same.2 fun m _ => ?_
          by_cases hc : (m.id == sel.id && m.content.isSome) = true
          · have hid : m.id = sel.id := by simpa using Bool.and_elim_left hc
            rcases Option.isSome_iff_exists.1 (Bool.and_elim_right hc) with ⟨c, hcc⟩
            rw [if_pos hid, if_pos hc]
            unfold sameExceptQuiz
            simp [hcc]
          · rw [if_neg hc]
            by_cases h : m.id = sel.id
            · rw [if_pos h]; exact sameExceptQuiz_refl m
            · rw [if_neg h]
        · exact hsame

/-- C7: every chat call of a processed upload after language detection —
lessons, quiz, summary, flashcards, title suggestion and categorization —
carries a system prompt that embeds the exact language-detection result,
`(o (detectMsgs text)).trim`, i.e. the raw completion modified only by
whitespace trimming. -/
theorem C7_language_threading (o : Oracle) (st : AppState) (fileName fileMime : String)
    (now : Date) (mid : String) (len : LessonLength) (url text errMsg : String)
    (h1 : uploadBlocked st = false) (h2 : isValidFormat fileName fileMime = true) :
    ∀ s msgs, Event.chat s msgs ∈ (handleFileUpload o st fileName fileMime now mid len
        url text errMsg none).events →
      s ≠ Stage.detectLang →
      ∃ m ∈ msgs, m.role = Role.system ∧
        ∃ a b, m.content = a ++ detectLanguage o text ++ b := by
  rw [handleFileUpload_run o st fileName fileMime now mid len url text errMsg none
    h1 h2]
  intro s msgs hmem hne
  simp only [runUploadPipeline, generateLearningContent, List.append_assoc,
    List.cons_append, List.nil_append, List.mem_cons, List.not_mem_nil,
    or_false] at hmem
  rcases hmem with h|h|h|h|h|h|h|h|h|h|h|h|h|h|h|h|h|h <;>
    first
    | exact Event.noConfusion h
    | (injection h with h1 h2
       subst h1
       subst h2
       first
       | exact absurd rfl hne
       | exact ⟨_, List.mem_cons_self _ _, rfl, _, _, rfl⟩)

/-- Witness for C7 at a concrete successful run whose detection response
carries surrounding whitespace. -/
theorem C7_language_threading_witness :
    uploadBlocked ⟨[], 0, false, false, false⟩ = false ∧
    isValidFormat "a.txt" "text/plain" = true ∧
    (∀ s msgs, Event.chat s msgs ∈ (handleFileUpload (fun _ => " English ")
        ⟨[], 0, false, false, false⟩ "a.txt" "text/plain" ⟨0⟩ "m" .normal "u" "t" ""
        none).events →
      s ≠ Stage.detectLang →
      ∃ m ∈ msgs, m.role = Role.system ∧
        ∃ a b, m.content = a ++ detectLanguage (fun _ => " English ") "t" ++ b) :=
  ⟨by decide, by decide,
   C7_language_threading (fun _ => " English ") ⟨[], 0, false, false, false⟩
     "a.txt" "text/plain" ⟨0⟩ "m" .normal "u" "t" "" (by decide) (by decide)⟩

/-- C8: a free session — no premium user, no premium subscription — whose
daily counter is already at the limit 3 is blocked before any side
effect: the store is unchanged, the counter is unchanged, no event (no
upload, no chat call, no counter increment) is emitted, no store write
occurs, and the subscription dialog is opened. -/
theorem C8_upload_limit_gate (o : Oracle) (st : AppState) (fileName fileMime : String)
    (now : Date) (mid : String) (len : LessonLength) (url text errMsg : String)
    (failAt : Option FailurePoint)
    (huser : st.userIsPremium = false) (hsub : st.subIsPremium = false)
    (hcount : st.todayUploadCount = 3) :
    (handleFileUpload o st fileName fileMime now mid len url text errMsg
        failAt).state.materials = st.materials ∧
    (handleFileUpload o st fileName fileMime now mid len url text errMsg
        failAt).state.todayUploadCount = st.todayUploadCount ∧
    (handleFileUpload o st fileName fileMime now mid len url text errMsg
        failAt).events = [] ∧
    (handleFileUpload o st fileName fileMime now mid len url text errMsg
        failAt).storeTrace = [] ∧
    (handleFileUpload o st fileName fileMime now mid len url text errMsg
        failAt).state.showSubscriptionDialog = true := by
  have hb : uploadBlocked st = true := by
    simp [uploadBlocked, canUpload, huser, hsub, hcount, FREE_DAILY_LIMIT]
  rw [handleFileUpload_blocked o st fileName fileMime now mid len url text errMsg
    failAt hb]
  exact ⟨rfl, rfl, rfl, rfl, rfl⟩

/-- Witness for C8 at a concrete free session with three uploads today. -/
theorem C8_upload_limit_gate_witness :
    (AppState.userIsPremium ⟨[sampleMaterial], 3, false, false, false⟩ = false) ∧
    (AppState.subIsPremium ⟨[sampleMaterial], 3, false, false, false⟩ = false) ∧
    (AppState.todayUploadCount ⟨[sampleMaterial], 3, false, false, false⟩ = 3) ∧
    ((handleFileUpload (fun _ => "x") ⟨[sampleMaterial], 3, false, false, false⟩
        "b.txt" "text/plain" ⟨0⟩ "m" .normal "u" "t" "boom"
        (some .atUpload)).state.materials = [sampleMaterial] ∧
     (handleFileUpload (fun _ => "x") ⟨[sampleMaterial], 3, false, false, false⟩
        "b.txt" "text/plain" ⟨0⟩ "m" .normal "u" "t" "boom"
        (some .atUpload)).events = []) :=
  ⟨rfl, rfl, rfl,
   (C8_upload_limit_gate (fun _ => "x") ⟨[sampleMaterial], 3, false, false, false⟩
      "b.txt" "text/plain" ⟨0⟩ "m" .normal "u" "t" "boom" (some .atUpload)
      rfl rfl rfl).1,
   (C8_upload_limit_gate (fun _ => "x") ⟨[sampleMaterial], 3, false, false, false⟩
      "b.txt" "text/plain" ⟨0⟩ "m" .normal "u" "t" "boom" (some .atUpload)
      rfl rfl rfl).2.2.1⟩

/-- C9: the sort view is a pure projection of the stored list: every sort
key returns a permutation of the store (the store itself is an input the
function never rebuilds); sorting by name is idempotent — applying the
name sort to its own output returns it unchanged; and the theme sort
orders by category, breaking equal-category ties by upload time
descending (`themeLE`). -/
theorem C9_sort_projection :
    (∀ (k : SortKey) (ms : List Material), (getSortedMaterials k ms).Perm ms) ∧
    (∀ ms : List Material,
      getSortedMaterials .name (getSortedMaterials .name ms)
        = getSortedMaterials .name ms) ∧
    (∀ ms : List Material, List.Sorted themeLE (getSortedMaterials .theme ms)) := by
  refine ⟨?_, ?_, ?_⟩
  · intro k ms
    cases k <;> exact List.perm_insertionSort _ _
  · intro ms
    exact (List.sorted_insertionSort nameLE ms).insertionSort_eq
  · intro ms
    exact List.sorted_insertionSort themeLE ms

/-- C10: past the limit gate and the format gate, the daily counter is
incremented by exactly one, the increment event precedes the upload
event, and the new value is kept whatever happens afterwards — for every
failure point (upload, extraction, any chat call) as well as for the
successful run. -/
theorem C10_counter_increment (o : Oracle) (st : AppState)
    (fileName fileMime : String) (now : Date) (mid : String) (len : LessonLength)
    (url text errMsg : String) (failAt : Option FailurePoint)
    (h1 : uploadBlocked st = false) (h2 : isValidFormat fileName fileMime = true) :
    (handleFileUpload o st fileName fileMime now mid len url text errMsg
        failAt).state.todayUploadCount = st.todayUploadCount + 1 ∧
    (handleFileUpload o st fileName fileMime now mid len url text errMsg
        failAt).events.take 3
      = [Event.progress 0, Event.incCount, Event.upload fileName] := by
  rw [handleFileUpload_run o st fileName fileMime now mid len url text errMsg
    failAt h1 h2]
  rcases failAt with _ | fp
  · exact ⟨rfl, rfl⟩
  · cases fp <;> exact ⟨rfl, rfl⟩

/-- Witness for C10 at a concrete run that fails at the quiz stage. -/
theorem C10_counter_increment_witness :
    uploadBlocked ⟨[], 2, false, false, false⟩ = false ∧
    isValidFormat "c.pdf" "application/pdf" = true ∧
    ((handleFileUpload (fun _ => "x") ⟨[], 2, false, false, false⟩ "c.pdf"
        "application/pdf" ⟨0⟩ "m" .normal "u" "t" "boom"
        (some .atQuiz)).state.todayUploadCount = 3 ∧
     (handleFileUpload (fun _ => "x") ⟨[], 2, false, false, false⟩ "c.pdf"
        "application/pdf" ⟨0⟩ "m" .normal "u" "t" "boom"
        (some .atQuiz)).events.take 3
       = [Event.progress 0, Event.incCount, Event.upload "c.pdf"]) :=
  ⟨by decide, by decide,
   C10_counter_increment (fun _ => "x") ⟨[], 2, false, false, false⟩ "c.pdf"
     "application/pdf" ⟨0⟩ "m" .normal "u" "t" "boom" (some .atQuiz)
     (by decide) (by decide)⟩
